import Mathlib

/-!
Shallow embedding of the timeline page in src/pages/index.tsx: the
CreatePostWizard submission controller (draft state, mutation guards,
success and error handlers), the error-message classifier over tRPC
error payloads, and the Feed render policy over the query-cache entry.
Machine behaviour of the DOM that the component relies on is made
explicit: events on a disabled input are not delivered, and a click can
only target a button that is actually rendered.
-/

/-- A post as returned by the remote store: server-issued id, text content and a
creation timestamp (modelled as a natural number of milliseconds). -/
structure Post where
  id : String
  content : String
  createdAt : Nat
deriving DecidableEq

/-- The denormalized author data the server attaches to each post. -/
structure Author where
  username : String
  profileImageUrl : String
deriving DecidableEq

/-- The unit the feed query returns: `RouterOutputs["post"]["getAll"][number]`. -/
structure PostWithAuthor where
  post : Post
  author : Author
deriving DecidableEq

/-- The flattened zod field-error map; only the `content` key is ever read
by the page (`fieldErrors.content : string[] | undefined`). -/
structure FieldErrors where
  content : Option (List String)
deriving DecidableEq

/-- The `zodError` object of a tRPC error payload; when present its
`fieldErrors` member is always present (it is accessed without optional
chaining in the source). -/
structure ZodErrorData where
  fieldErrors : FieldErrors
deriving DecidableEq

/-- The `data` member of a tRPC client error; `zodError` is optional. -/
structure TRPCErrorData where
  zodError : Option ZodErrorData
deriving DecidableEq

/-- A tRPC client error as the `onError` handler receives it; `data` is
optional (`e.data?.`). -/
structure TRPCClientError where
  data : Option TRPCErrorData
deriving DecidableEq

/-- The optional chain `e.data?.zodError?.fieldErrors.content` from the
`onError` handler: `none` when any optional link is absent. -/
def contentFieldErrors (e : TRPCClientError) : Option (List String) :=
  match e.data with
  | none => none
  | some d =>
    match d.zodError with
    | none => none
    | some z => z.fieldErrors.content

/-- The generic fallback toast text of the `onError` handler. -/
def genericCreateError : String := "Too many recent posts! Try again later."

/-- The message the `onError` handler passes to `toast.error`. The source
tests `errorMessage?.[0]` for truthiness: the branch showing the first
listed message is taken only when the list has a first element and that
element is a non-empty string (the empty string is falsy in JavaScript);
otherwise the generic fallback is shown. -/
def displayedCreateError (e : TRPCClientError) : String :=
  match contentFieldErrors e with
  | some msgs =>
    match msgs.head? with
    | some m => if m = "" then genericCreateError else m
    | none => genericCreateError
  | none => genericCreateError

/-- The query key the success handler invalidates:
`ctx.post.getAll.invalidate()`. -/
def feedQueryKey : String := "post.getAll"

/-- Observable side effects the CreatePostWizard emits. `invalidate`
records whether the caller awaited the returned promise; the source
discards it with `void`, so the flag is `false` there. -/
inductive Effect where
  | mutateCreate (content : String)
  | setDraft (value : String)
  | invalidate (key : String) (awaited : Bool)
  | toastError (message : String)
  | preventDefault
deriving DecidableEq

/-- Local state of one CreatePostWizard instance: the `input` draft from
`useState("")` and the `isPosting` flag (`isLoading` of the mutation). -/
structure WizardState where
  input : String
  isPosting : Bool
deriving DecidableEq

/-- Events a CreatePostWizard instance reacts to: a click on the Post
button, a key pressed while the draft field has focus, an input change,
and the two completions of the create mutation. -/
inductive Event where
  | buttonClick
  | keyDown (key : String)
  | changeInput (value : String)
  | remoteSuccess
  | remoteError (err : TRPCClientError)
deriving DecidableEq

/-- One step of the CreatePostWizard as compiled from its JSX handlers,
with DOM delivery made explicit:
the Post button exists only when `input !== "" && !isPosting` (and is
additionally `disabled={isPosting}`), so a click fires `mutate` exactly
under that condition; the draft field is `disabled={isPosting}`, so key
and change events are not delivered while posting; `onKeyDown` calls
`preventDefault()` on every Enter and then fires `mutate` when the draft
is non-empty; firing `mutate` sets the mutation to loading; `onSuccess`
runs `setInput("")` and then `void ctx.post.getAll.invalidate()`;
`onError` leaves the draft alone and toasts the classified message. -/
def CreatePostWizard.step (s : WizardState) : Event → WizardState × List Effect
  | Event.buttonClick =>
    if (s.input != "") && !s.isPosting then
      ({ s with isPosting := true }, [Effect.mutateCreate s.input])
    else (s, [])
  | Event.keyDown k =>
    if s.isPosting then (s, [])
    else if k == "Enter" then
      if s.input != "" then
        ({ s with isPosting := true },
          [Effect.preventDefault, Effect.mutateCreate s.input])
      else (s, [Effect.preventDefault])
    else (s, [])
  | Event.changeInput v =>
    if s.isPosting then (s, []) else ({ s with input := v }, [])
  | Event.remoteSuccess =>
    ({ input := "", isPosting := false },
      [Effect.setDraft "", Effect.invalidate feedQueryKey false])
  | Event.remoteError err =>
    ({ s with isPosting := false },
      [Effect.toastError (displayedCreateError err)])

/-- Whether an event is a submit attempt: the Post button click or Enter
in the draft field. -/
def Event.isSubmit : Event → Bool
  | Event.buttonClick => true
  | Event.keyDown k => k == "Enter"
  | _ => false

/-- Whether an effect is a create-mutation call. -/
def Effect.isMutateCreate : Effect → Bool
  | Effect.mutateCreate _ => true
  | _ => false

/-- The create-mutation calls of an effect trace, in order. -/
def mutations (l : List Effect) : List Effect :=
  l.filter Effect.isMutateCreate

/-- How many create-mutation calls an effect trace contains. -/
def mutateCount (l : List Effect) : Nat := (mutations l).length

/-- The identity data the wizard reads from the auth provider. -/
structure ClerkUser where
  profileImageUrl : String
deriving DecidableEq

/-- What the CreatePostWizard renders: `nothing` is the `return null`
branch; `form` carries the draft field value, whether the field is
disabled, whether the Post button is rendered, and whether the pending
spinner is rendered. -/
inductive WizardView where
  | nothing
  | form (inputValue : String) (inputDisabled : Bool)
      (showPostButton : Bool) (showSpinner : Bool)
deriving DecidableEq

/-- The CreatePostWizard render: `if (!user) return null`, else the form
with the button shown iff `input !== "" && !isPosting` and the spinner
shown iff `isPosting`. -/
def CreatePostWizard.render (user : Option ClerkUser) (s : WizardState) : WizardView :=
  match user with
  | none => WizardView.nothing
  | some _ =>
    WizardView.form s.input s.isPosting ((s.input != "") && !s.isPosting) s.isPosting

/-- Whether the rendered wizard view contains the draft field. -/
def WizardView.hasDraftField : WizardView → Bool
  | WizardView.nothing => false
  | WizardView.form _ _ _ _ => true

/-- Whether the rendered wizard view contains the Post button. -/
def WizardView.hasPostButton : WizardView → Bool
  | WizardView.nothing => false
  | WizardView.form _ _ b _ => b

/-- Whether the rendered wizard view contains the pending spinner. -/
def WizardView.hasSpinner : WizardView → Bool
  | WizardView.nothing => false
  | WizardView.form _ _ _ sp => sp

/-- The data of one rendered PostView: the React key and everything the
view displays of the post and its author. -/
structure PostViewModel where
  key : String
  authorUsername : String
  authorImage : String
  postId : String
  postCreatedAt : Nat
  postContent : String
deriving DecidableEq

/-- The PostView component as a pure function of its `PostWithAuthor`
props: key is `postWithAuthor.post.id`, and the displayed fields are
taken straight from the props. -/
def PostView (pa : PostWithAuthor) : PostViewModel :=
  { key := pa.post.id
    authorUsername := pa.author.username
    authorImage := pa.author.profileImageUrl
    postId := pa.post.id
    postCreatedAt := pa.post.createdAt
    postContent := pa.post.content }

/-- The feed query-cache entry as the Feed component reads it:
`data` (absent until a fetch succeeds), `isLoading` and `isError`.
The Feed render reads only `isLoading` and `data`. -/
structure FeedQueryResult where
  data : Option (List PostWithAuthor)
  isLoading : Bool
  isError : Bool
deriving DecidableEq

/-- What the Feed renders: the LoadingPage, the generic failure text
("Something went wrong...") or the list of PostViews. -/
inductive FeedView where
  | loadingPage
  | somethingWentWrong
  | posts (items : List PostViewModel)
deriving DecidableEq

/-- The Feed render: `if (posts.isLoading) return <LoadingPage/>`, then
`if (!posts.data) return <div>Something went wrong...</div>`, else one
PostView per element of `posts.data` via `map`, in delivered order
(an empty array is truthy in JavaScript, so `data = []` takes the map
branch). -/
def Feed.render (q : FeedQueryResult) : FeedView :=
  if q.isLoading then FeedView.loadingPage
  else
    match q.data with
    | none => FeedView.somethingWentWrong
    | some l => FeedView.posts (l.map PostView)

/-- Whether a feed view is the loading state. -/
def FeedView.isLoadingView : FeedView → Bool
  | FeedView.loadingPage => true
  | _ => false

/-- Whether a feed view is the generic failure state. -/
def FeedView.isErrorView : FeedView → Bool
  | FeedView.somethingWentWrong => true
  | _ => false

/-- The Feed render policy exactly as the spec words it, as a decidable
check to compare against `Feed.render`: the loading view appears iff the
entry is loading with no data yet, and the failure view appears iff the
entry is not loading and has no data. -/
def feedRenderPolicyClaimCheck (q : FeedQueryResult) : Bool :=
  ((Feed.render q).isLoadingView == (q.isLoading && q.data.isNone)) &&
  ((Feed.render q).isErrorView == (!q.isLoading && q.data.isNone))

/-- A create failure whose payload carries a non-empty `content` error
list whose first message is the empty string. -/
def emptyFirstMessageError : TRPCClientError :=
  { data := some { zodError := some { fieldErrors := { content := some [""] } } } }

/-- A create failure whose payload carries the single `content` error
message "Content too long". -/
def contentTooLongError : TRPCClientError :=
  { data := some { zodError := some { fieldErrors := { content := some ["Content too long"] } } } }

/-- C1: on successful completion of the create mutation the success
handler performs exactly two side effects in order — first the draft is
set to the empty string, then `invalidate` is called on the feed query
key with the returned promise discarded (not awaited) — and the
resulting draft state is empty. -/
theorem create_success_clears_then_invalidates (s : WizardState) :
    (CreatePostWizard.step s Event.remoteSuccess).2 =
      [Effect.setDraft "", Effect.invalidate feedQueryKey false] ∧
    (CreatePostWizard.step s Event.remoteSuccess).2.length = 2 ∧
    (CreatePostWizard.step s Event.remoteSuccess).1.input = "" :=
  ⟨rfl, rfl, rfl⟩

/-- C4: for every create failure the error handler leaves the draft
unchanged; its only effect is the toast with the classified message. -/
theorem create_error_preserves_draft (s : WizardState) (err : TRPCClientError) :
    (CreatePostWizard.step s (Event.remoteError err)).1.input = s.input ∧
    (CreatePostWizard.step s (Event.remoteError err)).2 =
      [Effect.toastError (displayedCreateError err)] :=
  ⟨rfl, rfl⟩

/-- C9: when the feed query completes with the empty list (loading false,
data present and empty) the Feed renders the populated-empty state, not
the generic failure state. -/
theorem feed_empty_data_renders_empty_list :
    Feed.render { data := some [], isLoading := false, isError := false } =
      FeedView.posts [] ∧
    (Feed.render { data := some [], isLoading := false, isError := false }).isErrorView =
      false :=
  ⟨rfl, rfl⟩

/-- C10: when the identity provider supplies no user the CreatePostWizard
renders nothing: no draft field, no Post button and no pending spinner
exist, whatever its local state. -/
theorem signed_out_renders_nothing (s : WizardState) :
    CreatePostWizard.render none s = WizardView.nothing ∧
    (CreatePostWizard.render none s).hasDraftField = false ∧
    (CreatePostWizard.render none s).hasPostButton = false ∧
    (CreatePostWizard.render none s).hasSpinner = false :=
  ⟨rfl, rfl, rfl, rfl⟩

/-- C8: in the populated state the Feed renders one PostView per element
of the delivered list via `map`, so the views are in exactly the
delivered order with the delivered ids and there is no re-sorting or
deduplication. -/
theorem feed_renders_delivered_order (l : List PostWithAuthor) (er : Bool) :
    Feed.render { data := some l, isLoading := false, isError := er } =
      FeedView.posts (l.map PostView) ∧
    (l.map PostView).length = l.length ∧
    (l.map PostView).map PostViewModel.postId = l.map fun pa => pa.post.id := by
  refine ⟨rfl, by simp, ?_⟩
  simp [List.map_map, PostView, Function.comp]

/-- C2 counterexample: the error `emptyFirstMessageError` carries a
non-empty `content` error list, yet the surfaced message is the generic
fallback and not the first listed message (the empty string), because
the handler tests the first message for JavaScript truthiness. -/
theorem create_error_first_message_cex :
    contentFieldErrors emptyFirstMessageError = some [""] ∧
    displayedCreateError emptyFirstMessageError = genericCreateError ∧
    (decide (displayedCreateError emptyFirstMessageError = "")) = false := by
  refine ⟨rfl, rfl, by decide⟩

/-- C2 amended: for every create failure whose payload carries a
`content` error list whose first message is a non-empty string, the
surfaced message is exactly that first message. -/
theorem create_error_surfaces_first_message (e : TRPCClientError)
    (msgs : List String) (m : String) (h1 : contentFieldErrors e = some msgs)
    (h2 : msgs.head? = some m) (h3 : m ≠ "") :
    displayedCreateError e = m := by
  unfold displayedCreateError
  simp only [h1, h2]
  simp [h3]

/-- Witness for the amended C2: at the payload carrying
`content = ["Content too long"]`, the surfaced message is exactly
"Content too long". -/
theorem create_error_surfaces_first_message_witness :
    displayedCreateError contentTooLongError = "Content too long" :=
  create_error_surfaces_first_message contentTooLongError ["Content too long"]
    "Content too long" rfl rfl (by decide)

/-- C3: for every create failure that carries no non-empty `content`
error list (the optional chain yields nothing or an empty list), the
surfaced message is the generic fallback string. -/
theorem create_error_generic_fallback (e : TRPCClientError)
    (h : (contentFieldErrors e).getD [] = []) :
    displayedCreateError e = genericCreateError := by
  unfold displayedCreateError
  cases hc : contentFieldErrors e with
  | none => rfl
  | some msgs =>
    rw [hc] at h
    simp only [Option.getD_some] at h
    subst h
    rfl

/-- Witness for C3: a failure with no structured payload surfaces the
generic fallback. -/
theorem create_error_generic_fallback_witness :
    displayedCreateError { data := none } = genericCreateError :=
  create_error_generic_fallback { data := none } rfl

/-- C7 counterexample: at the entry that is loading while data is
present, the Feed renders the loading state even though the entry has
data, so the policy as claimed (loading state only when loading with no
data) fails there. -/
theorem feed_render_claim_cex :
    feedRenderPolicyClaimCheck { data := some [], isLoading := true, isError := false } =
      false ∧
    Feed.render { data := some [], isLoading := true, isError := false } =
      FeedView.loadingPage := by
  refine ⟨rfl, rfl⟩

/-- C7 amended: the Feed renders the loading state exactly when the
entry is loading (regardless of whether data is present), and the
generic failure state exactly when the entry is not loading and has no
data; in no other case is either rendered. -/
theorem feed_render_policy (q : FeedQueryResult) :
    (Feed.render q).isLoadingView = q.isLoading ∧
    (Feed.render q).isErrorView = (!q.isLoading && q.data.isNone) := by
  obtain ⟨d, lo, er⟩ := q
  cases lo <;> cases d <;>
    simp [Feed.render, FeedView.isLoadingView, FeedView.isErrorView]

/-- C5: at most one create mutation is ever in flight per wizard
instance: a submit attempt while posting is a no-op (the button is not
rendered and the disabled field delivers no key events); a create call
is only ever emitted from a non-posting state and leaves the instance
posting; and two submits in rapid succession from a non-empty idle
draft emit exactly one create call. -/
theorem single_flight_create (s : WizardState) (e : Event) (c d : String) :
    (s.isPosting = true → e.isSubmit = true →
      CreatePostWizard.step s e = (s, [])) ∧
    (Effect.mutateCreate c ∈ (CreatePostWizard.step s e).2 →
      s.isPosting = false ∧ (CreatePostWizard.step s e).1.isPosting = true) ∧
    (d ≠ "" →
      mutateCount ((CreatePostWizard.step { input := d, isPosting := false } Event.buttonClick).2 ++
        (CreatePostWizard.step
          (CreatePostWizard.step { input := d, isPosting := false } Event.buttonClick).1
          Event.buttonClick).2) = 1) := by
  refine ⟨?_, ?_, ?_⟩
  · intro hp hs
    cases e <;> simp_all [CreatePostWizard.step, Event.isSubmit]
  · intro hmem
    obtain ⟨i, p⟩ := s
    cases e with
    | buttonClick =>
      cases p with
      | true => simp [CreatePostWizard.step] at hmem
      | false =>
        by_cases hi : i = ""
        · simp [CreatePostWizard.step, hi] at hmem
        · simp only [CreatePostWizard.step] at hmem ⊢
          simp [hi]
    | keyDown k =>
      cases p with
      | true => simp [CreatePostWizard.step] at hmem
      | false =>
        by_cases hk : k = "Enter"
        · by_cases hi : i = ""
          · simp [CreatePostWizard.step, hk, hi] at hmem
          · simp only [CreatePostWizard.step] at hmem ⊢
            simp [hk, hi]
        · simp [CreatePostWizard.step, hk] at hmem
    | changeInput v => cases p <;> simp [CreatePostWizard.step] at hmem
    | remoteSuccess => simp [CreatePostWizard.step] at hmem
    | remoteError err => simp [CreatePostWizard.step] at hmem
  · intro hd
    simp [CreatePostWizard.step, mutateCount, mutations, Effect.isMutateCreate, hd]

/-- Witness for C5: with draft "hi", a submit while posting leaves the
state and trace unchanged, and two rapid button submits from idle emit
exactly one create call. -/
theorem single_flight_create_witness :
    CreatePostWizard.step { input := "hi", isPosting := true } Event.buttonClick =
      ({ input := "hi", isPosting := true }, []) ∧
    mutateCount ((CreatePostWizard.step { input := "hi", isPosting := false } Event.buttonClick).2 ++
      (CreatePostWizard.step
        (CreatePostWizard.step { input := "hi", isPosting := false } Event.buttonClick).1
        Event.buttonClick).2) = 1 :=
  ⟨(single_flight_create { input := "hi", isPosting := true } Event.buttonClick "x" "x").1
      rfl rfl,
    (single_flight_create { input := "hi", isPosting := false } Event.buttonClick "x" "hi").2.2
      (by decide)⟩

/-- C6: Enter in the draft field reaches exactly the same submit action
as the Post button: it leads to the same next state, emits the same
create calls, emits a create call exactly under the precondition that
the draft is non-empty and the instance is not posting, and whenever the
Enter keystroke is delivered (field not disabled) the default behaviour
is suppressed via preventDefault. -/
theorem enter_matches_button_submit (s : WizardState) :
    (CreatePostWizard.step s (Event.keyDown "Enter")).1 =
      (CreatePostWizard.step s Event.buttonClick).1 ∧
    mutations (CreatePostWizard.step s (Event.keyDown "Enter")).2 =
      mutations (CreatePostWizard.step s Event.buttonClick).2 ∧
    mutations (CreatePostWizard.step s (Event.keyDown "Enter")).2 =
      (if (s.input != "") && !s.isPosting then [Effect.mutateCreate s.input] else []) ∧
    (s.isPosting = false →
      Effect.preventDefault ∈ (CreatePostWizard.step s (Event.keyDown "Enter")).2) := by
  obtain ⟨i, p⟩ := s
  cases p <;> cases hi : i == "" <;>
    simp_all [CreatePostWizard.step, mutations, Effect.isMutateCreate]

/-- Witness for C6: with the empty draft and the instance idle, Enter is
delivered and preventDefault is emitted. -/
theorem enter_matches_button_submit_witness :
    Effect.preventDefault ∈
      (CreatePostWizard.step { input := "", isPosting := false } (Event.keyDown "Enter")).2 :=
  (enter_matches_button_submit { input := "", isPosting := false }).2.2.2 rfl
